import Mathlib

/-!
Verification of `src/apps/brightpal-app/src-tauri/src/macos/screenshot.rs`.

The single function `capture_screen_interactive` is embedded shallowly as a
pure function over an explicit environment describing the platform, the
system clock, the temporary directory, the outcome of spawning the external
`screencapture` process, and the file-system read.  Every external effect the
Rust code performs (process spawn, file read) is recorded in an effect trace;
the Rust `unwrap` on the clock is modelled as an explicit `panics` outcome.
Base64 encoding follows the `base64` crate's `STANDARD` engine (RFC 4648
alphabet with `=` padding), which the code uses via
`base64::engine::general_purpose::STANDARD.encode`.
-/

/-- The RFC 4648 standard base64 alphabet used by the crate's STANDARD engine. -/
def b64Alphabet : List Char :=
  "ABCDEFGHIJKLMNOPQRSTUVWXYZabcdefghijklmnopqrstuvwxyz0123456789+/".toList

/-- The alphabet character for a 6-bit value. -/
def b64Char (n : Nat) : Char :=
  b64Alphabet.getD n 'A'

/-- The 6-bit value of an alphabet character, `none` for characters outside it. -/
def b64Index (c : Char) : Option Nat :=
  b64Alphabet.indexOf? c

/-- Base64 encoding of a byte sequence with `=` padding, as produced by
`base64::engine::general_purpose::STANDARD.encode` in the Rust code. -/
def b64EncodeBytes : List Nat → List Char
  | [] => []
  | [a] => [b64Char (a / 4), b64Char ((a % 4) * 16), '=', '=']
  | [a, b] => [b64Char (a / 4), b64Char ((a % 4) * 16 + b / 16),
      b64Char ((b % 16) * 4), '=']
  | a :: b :: c :: rest =>
      b64Char (a / 4) :: b64Char ((a % 4) * 16 + b / 16) ::
      b64Char ((b % 16) * 4 + c / 64) :: b64Char (c % 64) :: b64EncodeBytes rest

/-- Base64 decoding of one final quadruple of characters, honouring `=` padding. -/
def b64DecodeGroup (c1 c2 c3 c4 : Char) : Option (List Nat) :=
  (b64Index c1).bind fun v1 =>
  (b64Index c2).bind fun v2 =>
  if c3 = '=' then
    if c4 = '=' then some [v1 * 4 + v2 / 16] else none
  else
    (b64Index c3).bind fun v3 =>
    if c4 = '=' then some [v1 * 4 + v2 / 16, (v2 % 16) * 16 + v3 / 4]
    else
      (b64Index c4).bind fun v4 =>
      some [v1 * 4 + v2 / 16, (v2 % 16) * 16 + v3 / 4, (v3 % 4) * 64 + v4]

/-- Base64 decoding of a character sequence: quadruples, padding only at the end. -/
def b64DecodeChars : List Char → Option (List Nat)
  | [] => some []
  | c1 :: c2 :: c3 :: c4 :: [] => b64DecodeGroup c1 c2 c3 c4
  | c1 :: c2 :: c3 :: c4 :: rest =>
      match b64DecodeGroup c1 c2 c3 c4, b64DecodeChars rest with
      | some g, some r => if g.length = 3 then some (g ++ r) else none
      | _, _ => none
  | _ => none

/-- Exit status of a spawned process, as in `std::process::ExitStatus`. -/
structure ExitStatus where
  success : Bool
deriving DecidableEq, Repr

/-- An observable side effect performed by the function: spawning a process,
reading a file, or deleting a file (the last never occurs in this code but is
part of the effect vocabulary so that its absence is expressible). -/
inductive Effect where
  | spawn (program : String) (args : List String)
  | fsRead (path : String)
  | fsDelete (path : String)
deriving DecidableEq, Repr

/-- The environment an execution runs in: target OS, the clock reading
(`none` models a system time before the Unix epoch, where
`duration_since(UNIX_EPOCH)` errs), the display form of `std::env::temp_dir()`,
the result of `.status()` on a spawned command (`Except.error` models a spawn
failure carrying the OS error text), and the file-system read. -/
structure Env where
  target_os : String
  durationSinceEpochMs : Option Nat
  tempDirDisplay : String
  spawnStatus : String → List String → Except String ExitStatus
  readFile : String → Option (List Nat)

/-- Outcome of running a Rust function body: a panic or a returned value. -/
inductive Outcome (α : Type) where
  | panics
  | returns (v : α)
deriving DecidableEq, Repr

/-- The result of one execution: the trace of effects performed, in order,
and the outcome. -/
structure RunResult (α : Type) where
  effects : List Effect
  outcome : Outcome α
deriving DecidableEq, Repr

/-- The temp-file path the code builds:
`format!("{}/brightpal-screenshot-{}.png", temp_dir.display(), ts)`. -/
def screenshotFilePath (tempDirDisplay : String) (ts : Nat) : String :=
  tempDirDisplay ++ "/brightpal-screenshot-" ++ toString ts ++ ".png"

/-- The argument list passed to `/usr/bin/env`:
`screencapture -i -s -o <file>`. -/
def screencaptureArgs (file : String) : List String :=
  ["screencapture", "-i", "-s", "-o", file]

/-- Whether an effect is a file deletion; the effect vocabulary includes
deletion precisely so that its absence from every trace is expressible. -/
def isDeleteEffect : Effect → Bool
  | .fsDelete _ => true
  | _ => false

/-- Shallow embedding of `capture_screen_interactive` from
`src/apps/brightpal-app/src-tauri/src/macos/screenshot.rs`.  On macOS it reads
the clock (panicking before the epoch), builds the temp path, spawns
`/usr/bin/env screencapture -i -s -o <file>`, returns the mapped error on a
spawn failure, returns `Ok(("",""))` on a non-success exit status or an
unreadable file, and otherwise returns the path with a base64 data URL.
On any other OS it returns `Err("unsupported")` with no effects. -/
def capture_screen_interactive (env : Env) :
    RunResult (Except String (String × String)) :=
  if env.target_os = "macos" then
    match env.durationSinceEpochMs with
    | none => ⟨[], .panics⟩
    | some ts =>
      match env.spawnStatus "/usr/bin/env"
          (screencaptureArgs (screenshotFilePath env.tempDirDisplay ts)) with
      | .error e =>
          ⟨[.spawn "/usr/bin/env"
              (screencaptureArgs (screenshotFilePath env.tempDirDisplay ts))],
            .returns (.error ("failed to run screencapture: " ++ e))⟩
      | .ok status =>
          if !status.success then
            ⟨[.spawn "/usr/bin/env"
                (screencaptureArgs (screenshotFilePath env.tempDirDisplay ts))],
              .returns (.ok ("", ""))⟩
          else
            match env.readFile (screenshotFilePath env.tempDirDisplay ts) with
            | none =>
                ⟨[.spawn "/usr/bin/env"
                    (screencaptureArgs (screenshotFilePath env.tempDirDisplay ts)),
                  .fsRead (screenshotFilePath env.tempDirDisplay ts)],
                  .returns (.ok ("", ""))⟩
            | some bytes =>
                ⟨[.spawn "/usr/bin/env"
                    (screencaptureArgs (screenshotFilePath env.tempDirDisplay ts)),
                  .fsRead (screenshotFilePath env.tempDirDisplay ts)],
                  .returns (.ok (screenshotFilePath env.tempDirDisplay ts,
                    "data:image/png;base64," ++ String.mk (b64EncodeBytes bytes)))⟩
  else
    ⟨[], .returns (.error "unsupported")⟩

/-- A concrete macOS environment with a successful capture, for witnesses. -/
def okEnv : Env :=
  { target_os := "macos"
    durationSinceEpochMs := some 0
    tempDirDisplay := "/tmp"
    spawnStatus := fun _ _ => .ok ⟨true⟩
    readFile := fun _ => some [0] }

/-- A concrete macOS environment where the spawned tool exits non-zero. -/
def cancelEnv : Env :=
  { target_os := "macos"
    durationSinceEpochMs := some 0
    tempDirDisplay := "/tmp"
    spawnStatus := fun _ _ => .ok ⟨false⟩
    readFile := fun _ => none }

/-- A concrete macOS environment where spawning the tool fails outright. -/
def spawnFailEnv : Env :=
  { target_os := "macos"
    durationSinceEpochMs := some 0
    tempDirDisplay := "/tmp"
    spawnStatus := fun _ _ => .error "No such file or directory (os error 2)"
    readFile := fun _ => none }

/-- A concrete non-macOS environment. -/
def linuxEnv : Env :=
  { target_os := "linux"
    durationSinceEpochMs := some 0
    tempDirDisplay := "/tmp"
    spawnStatus := fun _ _ => .ok ⟨true⟩
    readFile := fun _ => none }

/-- A concrete macOS environment whose clock is before the Unix epoch. -/
def preEpochEnv : Env :=
  { target_os := "macos"
    durationSinceEpochMs := none
    tempDirDisplay := "/tmp"
    spawnStatus := fun _ _ => .ok ⟨true⟩
    readFile := fun _ => none }


/-- Decoding inverts encoding on every 6-bit value, checked exhaustively. -/
theorem b64Index_b64Char_fin : ∀ n : Fin 64, b64Index (b64Char n.val) = some n.val := by decide

/-- Decoding inverts encoding on every 6-bit value below 64. -/
theorem b64Index_b64Char (n : Nat) (h : n < 64) : b64Index (b64Char n) = some n :=
  b64Index_b64Char_fin ⟨n, h⟩

/-- No alphabet character is the padding character, checked exhaustively. -/
theorem b64Char_ne_pad_fin : ∀ n : Fin 64, b64Char n.val ≠ '=' := by decide

/-- No alphabet character of a 6-bit value is the padding character. -/
theorem b64Char_ne_pad (n : Nat) (h : n < 64) : b64Char n ≠ '=' :=
  b64Char_ne_pad_fin ⟨n, h⟩

/-- Encoding a non-empty byte sequence yields a non-empty character sequence. -/
theorem b64EncodeBytes_ne_nil (l : List Nat) (h : l ≠ []) : b64EncodeBytes l ≠ [] := by
  match l with
  | [] => exact absurd rfl h
  | [a] => simp [b64EncodeBytes]
  | [a, b] => simp [b64EncodeBytes]
  | a :: b :: c :: rest => simp [b64EncodeBytes]

/-- Base64 decoding inverts base64 encoding on every byte sequence. -/
theorem b64_roundtrip (l : List Nat) (h : ∀ x ∈ l, x < 256) :
    b64DecodeChars (b64EncodeBytes l) = some l := by
  induction l using b64EncodeBytes.induct with
  | case1 => simp [b64EncodeBytes, b64DecodeChars]
  | case2 a =>
      have ha : a < 256 := h a (by simp)
      simp only [b64EncodeBytes, b64DecodeChars, b64DecodeGroup]
      rw [b64Index_b64Char _ (by omega), b64Index_b64Char _ (by omega)]
      simp only [Option.bind_some, Option.some_bind, reduceIte,
        Option.some.injEq, List.cons.injEq, and_true]
      omega
  | case3 a b =>
      have ha : a < 256 := h a (by simp)
      have hb : b < 256 := h b (by simp)
      simp only [b64EncodeBytes, b64DecodeChars, b64DecodeGroup]
      rw [b64Index_b64Char _ (by omega), b64Index_b64Char _ (by omega)]
      simp only [Option.bind_some, Option.some_bind]
      rw [if_neg (b64Char_ne_pad _ (by omega)), b64Index_b64Char _ (by omega)]
      simp only [Option.bind_some, Option.some_bind, reduceIte,
        Option.some.injEq, List.cons.injEq, and_true]
      omega
  | case4 a b c rest ih =>
      have ha : a < 256 := h a (by simp)
      have hb : b < 256 := h b (by simp)
      have hc : c < 256 := h c (by simp)
      have hrest : ∀ x ∈ rest, x < 256 := fun x hx => h x (by simp [hx])
      have ih' := ih hrest
      cases hr : rest with
      | nil =>
          subst hr
          simp only [b64EncodeBytes, b64DecodeChars, b64DecodeGroup]
          rw [b64Index_b64Char _ (by omega), b64Index_b64Char _ (by omega)]
          simp only [Option.bind_some, Option.some_bind]
          rw [if_neg (b64Char_ne_pad _ (by omega)), b64Index_b64Char _ (by omega)]
          simp only [Option.bind_some, Option.some_bind]
          rw [if_neg (b64Char_ne_pad _ (by omega)), b64Index_b64Char _ (by omega)]
          simp only [Option.bind_some, Option.some_bind, reduceIte,
            Option.some.injEq, List.cons.injEq, and_true]
          omega
      | cons y ys =>
          subst hr
          obtain ⟨e1, es, hes⟩ : ∃ e1 es, b64EncodeBytes (y :: ys) = e1 :: es := by
            cases he : b64EncodeBytes (y :: ys) with
            | nil => exact absurd he (b64EncodeBytes_ne_nil _ (by simp))
            | cons e1 es => exact ⟨e1, es, rfl⟩
          rw [show b64EncodeBytes (a :: b :: c :: y :: ys) =
              b64Char (a / 4) :: b64Char ((a % 4) * 16 + b / 16) ::
              b64Char ((b % 16) * 4 + c / 64) :: b64Char (c % 64) ::
              b64EncodeBytes (y :: ys) from rfl, hes]
          rw [show b64DecodeChars (b64Char (a / 4) :: b64Char ((a % 4) * 16 + b / 16) ::
              b64Char ((b % 16) * 4 + c / 64) :: b64Char (c % 64) :: e1 :: es) =
              match b64DecodeGroup (b64Char (a / 4)) (b64Char ((a % 4) * 16 + b / 16))
                  (b64Char ((b % 16) * 4 + c / 64)) (b64Char (c % 64)),
                b64DecodeChars (e1 :: es) with
              | some g, some r => if g.length = 3 then some (g ++ r) else none
              | _, _ => none from rfl]
          rw [← hes, ih']
          simp only [b64DecodeGroup]
          rw [b64Index_b64Char _ (by omega), b64Index_b64Char _ (by omega)]
          simp only [Option.bind_some, Option.some_bind]
          rw [if_neg (b64Char_ne_pad _ (by omega)), b64Index_b64Char _ (by omega)]
          simp only [Option.bind_some, Option.some_bind]
          rw [if_neg (b64Char_ne_pad _ (by omega)), b64Index_b64Char _ (by omega)]
          simp only [Option.bind_some, Option.some_bind]
          simp only [List.length_cons, List.length_nil, reduceIte,
            Option.some.injEq, List.cons.injEq, List.cons_append,
            List.nil_append, and_true, eq_self_iff_true]
          omega

/-- The empty string has no characters. -/
theorem empty_data : ("" : String).data = [] := rfl

/-- The constructed temp-file path is never the empty string. -/
theorem screenshotFilePath_ne_empty (d : String) (ts : Nat) :
    screenshotFilePath d ts ≠ "" := by
  intro h
  have hd := String.ext_iff.mp h
  simp only [screenshotFilePath, String.data_append, empty_data,
    List.append_eq_nil] at hd
  exact (by decide : (".png" : String).data ≠ []) hd.2

/-- A data URL built on the PNG base64 scheme is never the empty string. -/
theorem dataUrl_ne_empty (s : String) :
    ("data:image/png;base64," ++ s : String) ≠ "" := by
  intro h
  have hd := String.ext_iff.mp h
  simp only [String.data_append, empty_data, List.append_eq_nil] at hd
  exact (by decide : ("data:image/png;base64," : String).data ≠ []) hd.1

/-- Claim C1: for every successful execution on macOS (the spawned tool exits
successfully and the output file is readable), `capture_screen_interactive`
returns `Ok((path, url))` where `path` is non-empty and `url` starts with the
exact text `data:image/png;base64,`. -/
theorem capture_success_shape (env : Env) (ts : Nat) (bytes : List Nat)
    (hos : env.target_os = "macos")
    (hts : env.durationSinceEpochMs = some ts)
    (hspawn : env.spawnStatus "/usr/bin/env"
      (screencaptureArgs (screenshotFilePath env.tempDirDisplay ts)) = .ok ⟨true⟩)
    (hread : env.readFile (screenshotFilePath env.tempDirDisplay ts) = some bytes) :
    ∃ path url rest,
      (capture_screen_interactive env).outcome = .returns (.ok (path, url)) ∧
      path ≠ "" ∧ url = "data:image/png;base64," ++ rest := by
  refine ⟨screenshotFilePath env.tempDirDisplay ts,
    "data:image/png;base64," ++ String.mk (b64EncodeBytes bytes),
    String.mk (b64EncodeBytes bytes), ?_, screenshotFilePath_ne_empty _ _, rfl⟩
  simp [capture_screen_interactive, hos, hts, hspawn, hread]

/-- Claim C2: for every successful execution, the suffix of the returned data
URL after `data:image/png;base64,`, when base64-decoded, equals exactly the
byte sequence read from the file at the returned path. -/
theorem capture_dataurl_roundtrip (env : Env) (ts : Nat) (bytes : List Nat)
    (hos : env.target_os = "macos")
    (hts : env.durationSinceEpochMs = some ts)
    (hspawn : env.spawnStatus "/usr/bin/env"
      (screencaptureArgs (screenshotFilePath env.tempDirDisplay ts)) = .ok ⟨true⟩)
    (hread : env.readFile (screenshotFilePath env.tempDirDisplay ts) = some bytes)
    (hbytes : ∀ x ∈ bytes, x < 256) :
    ∃ path url rest,
      (capture_screen_interactive env).outcome = .returns (.ok (path, url)) ∧
      url = "data:image/png;base64," ++ rest ∧
      b64DecodeChars rest.toList = some bytes ∧
      env.readFile path = some bytes := by
  refine ⟨screenshotFilePath env.tempDirDisplay ts,
    "data:image/png;base64," ++ String.mk (b64EncodeBytes bytes),
    String.mk (b64EncodeBytes bytes), ?_, rfl, ?_, hread⟩
  · simp [capture_screen_interactive, hos, hts, hspawn, hread]
  · exact b64_roundtrip bytes hbytes

/-- Claim C3: on macOS, when the spawned tool exits with a non-success status
(user cancellation) or the output file cannot be read,
`capture_screen_interactive` returns `Ok(("", ""))` — a pair of empty strings
as a success value, not an `Err`. -/
theorem capture_cancel_empty_pair (env : Env) (ts : Nat)
    (hos : env.target_os = "macos")
    (hts : env.durationSinceEpochMs = some ts)
    (hcase :
      (∃ st, env.spawnStatus "/usr/bin/env"
          (screencaptureArgs (screenshotFilePath env.tempDirDisplay ts)) = .ok st ∧
        st.success = false) ∨
      (env.spawnStatus "/usr/bin/env"
          (screencaptureArgs (screenshotFilePath env.tempDirDisplay ts)) = .ok ⟨true⟩ ∧
        env.readFile (screenshotFilePath env.tempDirDisplay ts) = none)) :
    (capture_screen_interactive env).outcome = .returns (.ok ("", "")) := by
  rcases hcase with ⟨st, hsp, hfail⟩ | ⟨hsp, hrd⟩
  · simp only [capture_screen_interactive, hos, reduceIte, hts, hsp, hfail,
      Bool.not_false]
  · simp [capture_screen_interactive, hos, hts, hsp, hrd]

/-- Claim C4: on every operating system other than macOS,
`capture_screen_interactive` returns the fixed error `Err("unsupported")` and
performs no side effects (empty effect trace, so no file is created). -/
theorem capture_unsupported (env : Env) (hos : env.target_os ≠ "macos") :
    capture_screen_interactive env = ⟨[], .returns (.error "unsupported")⟩ := by
  simp only [capture_screen_interactive]
  rw [if_neg hos]

/-- Claim C5: on macOS, when spawning the external capture process fails,
`capture_screen_interactive` returns a descriptive `Err` whose message is
`failed to run screencapture: ` followed by the OS error, distinct from the
empty-string-pair result used for cancellation. -/
theorem capture_spawn_failure_error (env : Env) (ts : Nat) (e : String)
    (hos : env.target_os = "macos")
    (hts : env.durationSinceEpochMs = some ts)
    (hsp : env.spawnStatus "/usr/bin/env"
      (screencaptureArgs (screenshotFilePath env.tempDirDisplay ts)) = .error e) :
    (capture_screen_interactive env).outcome =
      .returns (.error ("failed to run screencapture: " ++ e)) ∧
    (capture_screen_interactive env).outcome ≠ .returns (.ok ("", "")) := by
  have h1 : (capture_screen_interactive env).outcome =
      .returns (.error ("failed to run screencapture: " ++ e)) := by
    simp only [capture_screen_interactive, hos, reduceIte, hts, hsp]
  exact ⟨h1, by rw [h1]; simp⟩

/-- Claim C6: on macOS, every execution spawns the fixed program
`/usr/bin/env` with the fixed argument list `screencapture -i -s -o` followed
by the constructed temp-file path as final argument (the screenshot utility is
resolved through `/usr/bin/env` rather than by an absolute path of its own). -/
theorem capture_invokes_fixed_command (env : Env) (ts : Nat)
    (hos : env.target_os = "macos")
    (hts : env.durationSinceEpochMs = some ts) :
    ∃ rest, ((capture_screen_interactive env).effects =
        .spawn "/usr/bin/env"
          (screencaptureArgs (screenshotFilePath env.tempDirDisplay ts)) :: rest ∧
      screencaptureArgs (screenshotFilePath env.tempDirDisplay ts) =
        ["screencapture", "-i", "-s", "-o", screenshotFilePath env.tempDirDisplay ts]) := by
  rcases hsp : env.spawnStatus "/usr/bin/env"
      (screencaptureArgs (screenshotFilePath env.tempDirDisplay ts)) with e | st
  · exact ⟨[], by simp [capture_screen_interactive, hos, hts, hsp], rfl⟩
  · obtain ⟨b⟩ := st
    cases b
    · exact ⟨[], by simp [capture_screen_interactive, hos, hts, hsp], rfl⟩
    · rcases hrd : env.readFile (screenshotFilePath env.tempDirDisplay ts) with _ | bytes
      · exact ⟨[.fsRead (screenshotFilePath env.tempDirDisplay ts)],
          by simp [capture_screen_interactive, hos, hts, hsp, hrd], rfl⟩
      · exact ⟨[.fsRead (screenshotFilePath env.tempDirDisplay ts)],
          by simp [capture_screen_interactive, hos, hts, hsp, hrd], rfl⟩

/-- Claim C7: on macOS, the path returned on success is exactly
`{temp_dir}/brightpal-screenshot-{ts}.png`, where `temp_dir` is the displayed
OS temporary directory and `ts` the clock reading in milliseconds since the
Unix epoch. -/
theorem capture_path_timestamp_derived (env : Env) (ts : Nat) (bytes : List Nat)
    (hos : env.target_os = "macos")
    (hts : env.durationSinceEpochMs = some ts)
    (hspawn : env.spawnStatus "/usr/bin/env"
      (screencaptureArgs (screenshotFilePath env.tempDirDisplay ts)) = .ok ⟨true⟩)
    (hread : env.readFile (screenshotFilePath env.tempDirDisplay ts) = some bytes) :
    ∃ url, (capture_screen_interactive env).outcome = .returns
      (.ok (env.tempDirDisplay ++ "/brightpal-screenshot-" ++ toString ts ++ ".png",
        url)) := by
  have h : (capture_screen_interactive env).outcome = .returns
      (.ok (screenshotFilePath env.tempDirDisplay ts,
        "data:image/png;base64," ++ String.mk (b64EncodeBytes bytes))) := by
    simp [capture_screen_interactive, hos, hts, hspawn, hread]
  exact ⟨"data:image/png;base64," ++ String.mk (b64EncodeBytes bytes), h⟩

/-- Claim C8: no execution path of `capture_screen_interactive` performs a
delete operation: every effect in the trace of every execution is something
other than a file deletion, so the temp file, if created by the external tool,
is never cleaned up by this code. -/
theorem capture_never_deletes (env : Env) :
    (capture_screen_interactive env).effects.all (fun e => !(isDeleteEffect e)) = true := by
  by_cases hos : env.target_os = "macos"
  · rcases hd : env.durationSinceEpochMs with _ | ts
    · simp [capture_screen_interactive, hos, hd]
    · rcases hsp : env.spawnStatus "/usr/bin/env"
          (screencaptureArgs (screenshotFilePath env.tempDirDisplay ts)) with e | st
      · simp [capture_screen_interactive, hos, hd, hsp, isDeleteEffect]
      · obtain ⟨b⟩ := st
        cases b
        · simp [capture_screen_interactive, hos, hd, hsp, isDeleteEffect]
        · rcases hrd : env.readFile (screenshotFilePath env.tempDirDisplay ts) with _ | bytes
          · simp [capture_screen_interactive, hos, hd, hsp, hrd, isDeleteEffect]
          · simp [capture_screen_interactive, hos, hd, hsp, hrd, isDeleteEffect]
  · simp [capture_screen_interactive, hos]

/-- Claim C9: on macOS, `capture_screen_interactive` panics exactly when the
system clock is before the Unix epoch, because the timestamp computation uses
an unchecked `unwrap`; for a clock at or after the epoch it never panics. -/
theorem capture_panics_iff_pre_epoch (env : Env)
    (hos : env.target_os = "macos") :
    ((capture_screen_interactive env).outcome = .panics ↔
      env.durationSinceEpochMs = none) := by
  have hnp : ∀ ts, env.durationSinceEpochMs = some ts →
      (capture_screen_interactive env).outcome ≠ Outcome.panics := by
    intro ts hts
    rcases hsp : env.spawnStatus "/usr/bin/env"
        (screencaptureArgs (screenshotFilePath env.tempDirDisplay ts)) with e | st
    · simp [capture_screen_interactive, hos, hts, hsp]
    · obtain ⟨b⟩ := st
      cases b
      · simp [capture_screen_interactive, hos, hts, hsp]
      · rcases hrd : env.readFile (screenshotFilePath env.tempDirDisplay ts) with _ | bytes
        · simp [capture_screen_interactive, hos, hts, hsp, hrd]
        · simp [capture_screen_interactive, hos, hts, hsp, hrd]
  constructor
  · intro hp
    cases hd : env.durationSinceEpochMs with
    | none => rfl
    | some ts => exact absurd hp (hnp ts hd)
  · intro hn
    simp only [capture_screen_interactive, hos, reduceIte, hn]

/-- Claim C10: for every `Ok((path, url))` returned by
`capture_screen_interactive`, `path` is empty if and only if `url` is empty:
the pair is either both empty (cancellation or unreadable file) or both
non-empty (success); no mixed pair is ever returned. -/
theorem capture_pair_empty_iff (env : Env) (p u : String)
    (h : (capture_screen_interactive env).outcome = .returns (.ok (p, u))) :
    (p = "" ↔ u = "") := by
  by_cases hos : env.target_os = "macos"
  · rcases hd : env.durationSinceEpochMs with _ | ts
    · simp [capture_screen_interactive, hos, hd] at h
    · rcases hsp : env.spawnStatus "/usr/bin/env"
          (screencaptureArgs (screenshotFilePath env.tempDirDisplay ts)) with e | st
      · simp [capture_screen_interactive, hos, hd, hsp] at h
      · obtain ⟨b⟩ := st
        cases b
        · simp [capture_screen_interactive, hos, hd, hsp] at h
          obtain ⟨hp, hu⟩ := h
          subst hp
          subst hu
          exact Iff.rfl
        · rcases hrd : env.readFile (screenshotFilePath env.tempDirDisplay ts) with _ | bytes
          · simp [capture_screen_interactive, hos, hd, hsp, hrd] at h
            obtain ⟨hp, hu⟩ := h
            subst hp
            subst hu
            exact Iff.rfl
          · simp [capture_screen_interactive, hos, hd, hsp, hrd] at h
            obtain ⟨hp, hu⟩ := h
            subst hp
            subst hu
            exact iff_of_false (screenshotFilePath_ne_empty _ _) (dataUrl_ne_empty _)
  · simp [capture_screen_interactive, hos] at h

/-- Claim C1: for every successful execution on macOS (the spawned tool exits
successfully and the output file is readable), `capture_screen_interactive`
returns `Ok((path, url))` where `path` is non-empty and `url` starts with the
exact text `data:image/png;base64,`. -/
theorem capture_success_shape_witness :
    ∃ path url rest,
      (capture_screen_interactive okEnv).outcome = .returns (.ok (path, url)) ∧
      path ≠ "" ∧ url = "data:image/png;base64," ++ rest :=
  capture_success_shape okEnv 0 [0] rfl rfl rfl rfl

/-- Claim C2: for every successful execution, the suffix of the returned data
URL after `data:image/png;base64,`, when base64-decoded, equals exactly the
byte sequence read from the file at the returned path. -/
theorem capture_dataurl_roundtrip_witness :
    ∃ path url rest,
      (capture_screen_interactive okEnv).outcome = .returns (.ok (path, url)) ∧
      url = "data:image/png;base64," ++ rest ∧
      b64DecodeChars rest.toList = some [0] ∧
      okEnv.readFile path = some [0] :=
  capture_dataurl_roundtrip okEnv 0 [0] rfl rfl rfl rfl (by decide)

/-- Claim C3: on macOS, when the spawned tool exits with a non-success status
(user cancellation) or the output file cannot be read,
`capture_screen_interactive` returns `Ok(("", ""))` — a pair of empty strings
as a success value, not an `Err`. -/
theorem capture_cancel_empty_pair_witness :
    (capture_screen_interactive cancelEnv).outcome = .returns (.ok ("", "")) :=
  capture_cancel_empty_pair cancelEnv 0 rfl rfl (Or.inl ⟨⟨false⟩, rfl, rfl⟩)

/-- Claim C4: on every operating system other than macOS,
`capture_screen_interactive` returns the fixed error `Err("unsupported")` and
performs no side effects (empty effect trace, so no file is created). -/
theorem capture_unsupported_witness :
    capture_screen_interactive linuxEnv = ⟨[], .returns (.error "unsupported")⟩ :=
  capture_unsupported linuxEnv (by decide)

/-- Claim C5: on macOS, when spawning the external capture process fails,
`capture_screen_interactive` returns a descriptive `Err` whose message is
`failed to run screencapture: ` followed by the OS error, distinct from the
empty-string-pair result used for cancellation. -/
theorem capture_spawn_failure_error_witness :
    (capture_screen_interactive spawnFailEnv).outcome =
      .returns (.error
        ("failed to run screencapture: " ++ "No such file or directory (os error 2)")) ∧
    (capture_screen_interactive spawnFailEnv).outcome ≠ .returns (.ok ("", "")) :=
  capture_spawn_failure_error spawnFailEnv 0 "No such file or directory (os error 2)"
    rfl rfl rfl

/-- Claim C6: on macOS, every execution spawns the fixed program
`/usr/bin/env` with the fixed argument list `screencapture -i -s -o` followed
by the constructed temp-file path as final argument (the screenshot utility is
resolved through `/usr/bin/env` rather than by an absolute path of its own). -/
theorem capture_invokes_fixed_command_witness :
    ∃ rest, ((capture_screen_interactive okEnv).effects =
        .spawn "/usr/bin/env"
          (screencaptureArgs (screenshotFilePath okEnv.tempDirDisplay 0)) :: rest ∧
      screencaptureArgs (screenshotFilePath okEnv.tempDirDisplay 0) =
        ["screencapture", "-i", "-s", "-o", screenshotFilePath okEnv.tempDirDisplay 0]) :=
  capture_invokes_fixed_command okEnv 0 rfl rfl

/-- Claim C7: on macOS, the path returned on success is exactly
`{temp_dir}/brightpal-screenshot-{ts}.png`, where `temp_dir` is the displayed
OS temporary directory and `ts` the clock reading in milliseconds since the
Unix epoch. -/
theorem capture_path_timestamp_derived_witness :
    ∃ url, (capture_screen_interactive okEnv).outcome = .returns
      (.ok (okEnv.tempDirDisplay ++ "/brightpal-screenshot-" ++ toString 0 ++ ".png",
        url)) :=
  capture_path_timestamp_derived okEnv 0 [0] rfl rfl rfl rfl

/-- Claim C9: on macOS, `capture_screen_interactive` panics exactly when the
system clock is before the Unix epoch, because the timestamp computation uses
an unchecked `unwrap`; for a clock at or after the epoch it never panics. -/
theorem capture_panics_iff_pre_epoch_witness :
    ((capture_screen_interactive preEpochEnv).outcome = .panics ↔
      preEpochEnv.durationSinceEpochMs = none) :=
  capture_panics_iff_pre_epoch preEpochEnv rfl

/-- Claim C10: for every `Ok((path, url))` returned by
`capture_screen_interactive`, `path` is empty if and only if `url` is empty:
the pair is either both empty (cancellation or unreadable file) or both
non-empty (success); no mixed pair is ever returned. -/
theorem capture_pair_empty_iff_witness :
    ("/tmp/brightpal-screenshot-0.png" = "" ↔ "data:image/png;base64,AA==" = "") :=
  capture_pair_empty_iff okEnv "/tmp/brightpal-screenshot-0.png"
    "data:image/png;base64,AA==" rfl
